import Mathlib

/-!
Verification of the PhysicalPort orchestrator
(`src/projects/modules/physical_port/physical_port.cpp`).

The embedding mirrors the translation unit statement by statement:

* `PHYSICAL_PORT_WORKER_COUNT` is the source's worker-pool size constant (16).
* `Socket` models the external Transport Primitive (`ov::ServerSocket` /
  `ov::DatagramSocket`) at the interface boundary the source consumes:
  a current `SocketState` and the outcome of its `Close()` call.
* `PhysicalPortWorker` models a pool worker: its running flag and FIFO task queue.
* `PhysicalPort` is the orchestrator's state: `_type`, `_server_socket`,
  `_datagram_socket`, `_need_to_stop`, `_worker_list`, `_address`, the
  event-loop thread, and `_observer_list`.
* Operations (`create`, `createServerSocket`, `createDatagramSocket`, `close`,
  `getState`, `addObserver`, `removeObserver`, the data callbacks) follow the
  C++ control flow line by line.  A C++ null-pointer dereference, and the
  `std::terminate` raised by move-assigning onto a still-joinable
  `std::thread`, are modelled as `Option.none` (the call never returns);
  `OV_ASSERT2` is a debug-only assertion with no effect in release builds,
  so it does not alter control flow here (noted where it occurs).
* `close` and the create functions additionally return a trace of the
  externally visible actions they perform, in program order, so that
  ordering claims can be stated as equalities on the trace.
-/

namespace OvenPhysicalPort

/-- Source: `define PHYSICAL_PORT_WORKER_COUNT 16`. -/
def PHYSICAL_PORT_WORKER_COUNT : Nat := 16

/-- `ov::SocketType`: the constructor set the source's switches distinguish. -/
inductive SocketType
  | Unknown
  | Tcp
  | Udp
  | Srt
deriving DecidableEq, Repr

/-- `ov::SocketState` of the Transport Primitive (external collaborator);
only `Closed` is inspected by the source, the others witness "not closed". -/
inductive SocketState
  | Closed
  | Created
  | Bound
  | Listening
  | Connected
  | Error
deriving DecidableEq, Repr

/-- `ov::SocketConnectionState`, the value the source's callbacks return. -/
inductive SocketConnectionState
  | Connected
  | Disconnected
  | Error
deriving DecidableEq, Repr

/-- `PhysicalPortDisconnectReason` from the source's client callback. -/
inductive PhysicalPortDisconnectReason
  | Disconnected
  | Error
deriving DecidableEq, Repr

/-- Modelled from the spec: the Transport Primitive contract consumed by the
Port (`GetState() -> SocketState`, `Close() -> bool`; on a successful close the
primitive reports `Closed`).  The primitive itself is an external collaborator
(spec section 2), so it is represented by its observable state plus the
outcome its `Close()` call will have. -/
structure Socket where
  state : SocketState
  closeOk : Bool
deriving DecidableEq, Repr

/-- `GetState()` of the Transport Primitive. -/
def Socket.getState (s : Socket) : SocketState := s.state

/-- `Close()` of the Transport Primitive: on success it reports `Closed`,
on failure the state is unchanged (modelled from the spec contract). -/
def Socket.close (s : Socket) : Bool × Socket :=
  if s.closeOk then (true, { s with state := SocketState.Closed }) else (false, s)

/-- Observers are external objects registered by pointer; identity is all the
source compares (`std::find` over `_observer_list`), so a numeric identity
suffices. -/
abbrev Observer := Nat

/-- An opaque received byte buffer (`ov::Data`). -/
abbrev Data := List Nat

/-- `ov::SocketAddress`, opaque to this translation unit. -/
abbrev SocketAddress := Nat

/-- A worker task: the connection (client socket identity) plus the payload
snapshot, as enqueued by `worker->AddTask(client, data)`. -/
abbrev WorkerTask := Nat × Data

/-- `PhysicalPortWorker`: running flag and FIFO task queue.  Constructed
not-running (`emplace_back(make_shared<PhysicalPortWorker>(...))`), then
`Start()`ed, `AddTask`ed, `Stop()`ped. -/
structure PhysicalPortWorker where
  running : Bool
  tasks : List WorkerTask
deriving DecidableEq, Repr

/-- A freshly constructed worker: not yet started, empty queue. -/
def PhysicalPortWorker.construct : PhysicalPortWorker :=
  { running := false, tasks := [] }

/-- `PhysicalPortWorker::Start()`. -/
def PhysicalPortWorker.start (w : PhysicalPortWorker) : PhysicalPortWorker :=
  { w with running := true }

/-- `PhysicalPortWorker::Stop()`. -/
def PhysicalPortWorker.stop (w : PhysicalPortWorker) : PhysicalPortWorker :=
  { w with running := false }

/-- `PhysicalPortWorker::AddTask(client, data)`: FIFO enqueue. -/
def PhysicalPortWorker.addTask (w : PhysicalPortWorker) (t : WorkerTask) :
    PhysicalPortWorker :=
  { w with tasks := w.tasks ++ [t] }

/-- The `PhysicalPort` object's state: field for field the members the
translation unit reads and writes.  `thread_running` models whether the
event-loop `_thread` has been started and not yet joined. -/
structure PhysicalPort where
  type : SocketType
  server_socket : Option Socket
  datagram_socket : Option Socket
  need_to_stop : Bool
  worker_list : List PhysicalPortWorker
  address : Option SocketAddress
  thread_running : Bool
  observer_list : List Observer
deriving DecidableEq, Repr

/-- The constructor `PhysicalPort::PhysicalPort()`: type `Unknown`, both
sockets null, `_need_to_stop = true`, everything else empty. -/
def PhysicalPort.construct : PhysicalPort :=
  { type := SocketType.Unknown
    server_socket := none
    datagram_socket := none
    need_to_stop := true
    worker_list := []
    address := none
    thread_running := false
    observer_list := [] }

/-- Externally visible actions of `Create`/`Close`, recorded in program
order so ordering claims become trace equalities. -/
inductive Event
  | createWorker
  | startWorker
  | prepare (ok : Bool)
  | startThread
  | setStopFlag
  | stopWorker
  | clearWorkers
  | joinThread
  | socketGetState
  | socketClose
deriving DecidableEq, Repr

/-- `PhysicalPort::CreateServerSocket` (stream / reliable-datagram path).
`prepareOk` is the outcome of the external `socket->Prepare(...)` call;
`closeOk` parameterises the prepared primitive's later close behaviour.
Mirrors the source: emplace 16 workers (exclusive lock), start every worker in
the list (shared lock), construct the server socket, `Prepare`; on success set
`_type`, `_server_socket`, clear `_need_to_stop`, then execute
`_thread = std::thread(proc)` — a move-assignment that calls `std::terminate`
if the previous event-loop thread is still joinable (modelled as `none`: the
call never returns) — record `_address`, return true; on failure return false
with no cleanup of the workers just created and started (and no thread
assignment, so no abort on that path). -/
def PhysicalPort.createServerSocket (p : PhysicalPort) (ty : SocketType)
    (address : SocketAddress) (prepareOk : Bool) (closeOk : Bool) :
    Option (Bool × PhysicalPort × List Event) :=
  let p1 : PhysicalPort :=
    { p with worker_list :=
        p.worker_list ++
          List.replicate PHYSICAL_PORT_WORKER_COUNT PhysicalPortWorker.construct }
  let startedCount := p1.worker_list.length
  let p2 : PhysicalPort :=
    { p1 with worker_list := p1.worker_list.map PhysicalPortWorker.start }
  let trace :=
    List.replicate PHYSICAL_PORT_WORKER_COUNT Event.createWorker ++
      List.replicate startedCount Event.startWorker ++ [Event.prepare prepareOk]
  if prepareOk then
    if p.thread_running then
      none
    else
      some (true,
        { p2 with
            type := ty
            server_socket := some { state := SocketState.Listening, closeOk := closeOk }
            need_to_stop := false
            thread_running := true
            address := some address },
        trace ++ [Event.startThread])
  else
    some (false, p2, trace)

/-- `PhysicalPort::CreateDatagramSocket` (unreliable-datagram path): no
workers; `Prepare`, and on success set `_type`, `_datagram_socket`, clear
`_need_to_stop`, then `_thread = std::thread(proc)` — again `std::terminate`
(`none`) if the previous event-loop thread is still joinable — and record
`_address`. -/
def PhysicalPort.createDatagramSocket (p : PhysicalPort) (ty : SocketType)
    (address : SocketAddress) (prepareOk : Bool) (closeOk : Bool) :
    Option (Bool × PhysicalPort × List Event) :=
  if prepareOk then
    if p.thread_running then
      none
    else
      some (true,
        { p with
            type := ty
            datagram_socket := some { state := SocketState.Bound, closeOk := closeOk }
            need_to_stop := false
            thread_running := true
            address := some address },
        [Event.prepare true, Event.startThread])
  else
    some (false, p, [Event.prepare false])

/-- `PhysicalPort::Create`: the `OV_ASSERT2((_server_socket == nullptr) &&
(_datagram_socket == nullptr))` at the top is a debug-only assertion with no
effect on release control flow, so the switch runs unconditionally:
`Srt`/`Tcp` go to `CreateServerSocket`, `Udp` to `CreateDatagramSocket`,
`Unknown` falls through to `return false`. -/
def PhysicalPort.create (p : PhysicalPort) (ty : SocketType)
    (address : SocketAddress) (prepareOk : Bool) (closeOk : Bool) :
    Option (Bool × PhysicalPort × List Event) :=
  match ty with
  | SocketType.Srt => p.createServerSocket ty address prepareOk closeOk
  | SocketType.Tcp => p.createServerSocket ty address prepareOk closeOk
  | SocketType.Udp => p.createDatagramSocket ty address prepareOk closeOk
  | SocketType.Unknown => some (false, p, [])

/-- `PhysicalPort::Close`: set `_need_to_stop`; stop every worker (shared
lock); clear `_worker_list` (exclusive lock); join `_thread`; then switch on
`_type`.  `Tcp`: if `_server_socket` is non-null and either already reports
`Closed` or its `Close()` succeeds, null the member, clear `_observer_list`,
return true.  `Udp`: same, but the source dereferences `_datagram_socket`
without a null check (modelled as `none` = crash).  Any other type (including
`Srt`, which `Create` does produce) falls to `default` and returns false. -/
def PhysicalPort.close (p : PhysicalPort) :
    Option (Bool × PhysicalPort × List Event) :=
  let stopTrace := List.replicate p.worker_list.length Event.stopWorker
  let p4 : PhysicalPort :=
    { p with need_to_stop := true, worker_list := [], thread_running := false }
  let trace := Event.setStopFlag :: stopTrace ++ [Event.clearWorkers, Event.joinThread]
  match p4.type with
  | SocketType.Tcp =>
    match p4.server_socket with
    | some s =>
      if s.getState = SocketState.Closed then
        some (true, { p4 with server_socket := none, observer_list := [] },
          trace ++ [Event.socketGetState])
      else
        match s.close with
        | (true, _) =>
          some (true, { p4 with server_socket := none, observer_list := [] },
            trace ++ [Event.socketGetState, Event.socketClose])
        | (false, s2) =>
          some (false, { p4 with server_socket := some s2 },
            trace ++ [Event.socketGetState, Event.socketClose])
    | none => some (false, p4, trace)
  | SocketType.Udp =>
    match p4.datagram_socket with
    | some s =>
      if s.getState = SocketState.Closed then
        some (true, { p4 with datagram_socket := none, observer_list := [] },
          trace ++ [Event.socketGetState])
      else
        match s.close with
        | (true, _) =>
          some (true, { p4 with datagram_socket := none, observer_list := [] },
            trace ++ [Event.socketGetState, Event.socketClose])
        | (false, s2) =>
          some (false, { p4 with datagram_socket := some s2 },
            trace ++ [Event.socketGetState, Event.socketClose])
    | none => none
  | _ => some (false, p4, trace)

/-- `PhysicalPort::GetState`: switches on `_type` and dereferences the
corresponding socket member (`OV_ASSERT2(... != nullptr)` is debug-only; a
null member is an undefined dereference, modelled as `none`).  The default
branch returns `Closed`. -/
def PhysicalPort.getState (p : PhysicalPort) : Option SocketState :=
  match p.type with
  | SocketType.Tcp => p.server_socket.map Socket.getState
  | SocketType.Udp => p.datagram_socket.map Socket.getState
  | _ => some SocketState.Closed

/-- `PhysicalPort::AddObserver`: unconditional `push_back`, returns true. -/
def PhysicalPort.addObserver (p : PhysicalPort) (o : Observer) :
    Bool × PhysicalPort :=
  (true, { p with observer_list := p.observer_list ++ [o] })

/-- `PhysicalPort::RemoveObserver`: `std::find`; if absent return false,
else erase that (first) occurrence and return true. -/
def PhysicalPort.removeObserver (p : PhysicalPort) (o : Observer) :
    Bool × PhysicalPort :=
  if o ∈ p.observer_list then
    (true, { p with observer_list := p.observer_list.erase o })
  else
    (false, p)

/-- The worker index the stream data callback computes:
`client->GetSocket().GetSocket() % PHYSICAL_PORT_WORKER_COUNT`, a pure
function of the connection's stable socket identifier. -/
def workerIndexOf (clientId : Nat) : Nat :=
  clientId % PHYSICAL_PORT_WORKER_COUNT

/-- The stream `data_callback`: look up `_worker_list.at(id mod 16)` (under a
shared lock) and enqueue the task; always returns `Connected`.  `vector::at`
on an out-of-range index throws, modelled as `none`. -/
def PhysicalPort.dataCallback (p : PhysicalPort) (clientId : Nat) (data : Data) :
    Option (PhysicalPort × SocketConnectionState) :=
  match p.worker_list.get? (workerIndexOf clientId) with
  | some w =>
    some ({ p with worker_list :=
        p.worker_list.set (workerIndexOf clientId) (w.addTask (clientId, data)) },
      SocketConnectionState.Connected)
  | none => none

/-- One observer notification, as fanned out by the source's callbacks. -/
inductive Notice
  | onConnected (client : Nat)
  | onDisconnected (client : Nat) (reason : PhysicalPortDisconnectReason)
      (err : Option Nat)
  | onDataReceived (remote : SocketAddress) (payload : Data)
deriving DecidableEq, Repr

/-- `for_each(_observer_list.begin(), _observer_list.end(), func)`: every
entry of the list, duplicates included, receives the notification, in list
order. -/
def notifyObservers (l : List Observer) (n : Notice) : List (Observer × Notice) :=
  l.map (fun o => (o, n))

/-- The datagram `data_callback`: fan `OnDataReceived(socket, remote, data)`
out to every observer directly; it touches no worker, so the list of tasks it
enqueues is empty; returns true to keep dispatching. -/
def PhysicalPort.udpDataCallback (p : PhysicalPort) (remote : SocketAddress)
    (data : Data) : List (Observer × Notice) × List WorkerTask × Bool :=
  (notifyObservers p.observer_list (Notice.onDataReceived remote data), [], true)

/-- The notifications a datagram port's event loop produces for a sequence of
received packets: `DispatchEvent` is wired with only the data callback (the
datagram `proc` has no connection-state callback at all). -/
def PhysicalPort.udpDispatch (p : PhysicalPort)
    (packets : List (SocketAddress × Data)) : List (Observer × Notice) :=
  (packets.map (fun pk =>
    notifyObservers p.observer_list (Notice.onDataReceived pk.1 pk.2))).flatten

/-! ### Concrete fixtures used by the theorems below -/

/-- A TCP port at the moment `Close()` inspects the primitive: the event-loop
`proc` has already closed the socket on loop exit (so it reports `Closed`),
one observer is registered, the pool holds its 16 started workers. -/
def tcpPortAtClose : PhysicalPort :=
  { type := SocketType.Tcp
    server_socket := some { state := SocketState.Closed, closeOk := true }
    datagram_socket := none
    need_to_stop := true
    worker_list := List.replicate 16 { running := true, tasks := [] }
    address := some 9000
    thread_running := true
    observer_list := [7] }

/-- The same port state for an SRT (reliable-datagram) endpoint: `Create`
stores `_type = Srt` via `CreateServerSocket`, and its `proc` likewise closes
the socket on loop exit. -/
def srtPortAtClose : PhysicalPort :=
  { tcpPortAtClose with type := SocketType.Srt }

/-- A TCP port with an open (listening) primitive: the state after a
successful `Create(Tcp, ...)` while the event loop is running. -/
def activeTcpPort : PhysicalPort :=
  { type := SocketType.Tcp
    server_socket := some { state := SocketState.Listening, closeOk := true }
    datagram_socket := none
    need_to_stop := false
    worker_list := List.replicate 16 { running := true, tasks := [] }
    address := some 9000
    thread_running := true
    observer_list := [7] }

/-- A fresh port with three registered observers. -/
def obsPort : PhysicalPort :=
  { PhysicalPort.construct with observer_list := [1, 2, 3] }

/-! ### Claims -/

/-- C1: when `Prepare` fails during `Create` of a stream kind, the source
returns false (the call does return: the thread assignment is never reached
on this path) and starts no event-loop thread, but — contrary to the claim —
it leaves the 16 workers it just created and started in `_worker_list`, all
still running: `CreateServerSocket`'s failure path is a bare `return false`
with no teardown. -/
theorem C1_prepare_failure_keeps_started_workers :
    (PhysicalPort.construct.create SocketType.Tcp 9000 false true).map
        (fun r => r.1) = some false ∧
    (PhysicalPort.construct.create SocketType.Tcp 9000 false true).map
        (fun r => r.2.1.thread_running) = some false ∧
    (PhysicalPort.construct.create SocketType.Tcp 9000 false true).map
        (fun r => r.2.1.worker_list)
      = some (List.replicate 16 { running := true, tasks := [] }) ∧
    (PhysicalPort.construct.create SocketType.Tcp 9000 false true).map
        (fun r => r.2.1.worker_list.all (fun w => w.running)) = some true := by
  decide

/-- C2: `Close()` on a TCP port whose primitive reports `Closed` returns true
and nulls `_server_socket`, but leaves `_type = Tcp`; the subsequent
`GetState()` therefore dereferences the cleared socket member (`none` in the
model), instead of returning `Closed` as the claim states. -/
theorem C2_get_state_after_successful_close :
    (tcpPortAtClose.close).map
        (fun r => (r.1, r.2.1.type, r.2.1.server_socket, r.2.1.getState))
      = some (true, SocketType.Tcp, none, none) := by
  decide

/-- C4: `Close()`'s final switch handles only `Tcp` and `Udp`.  On an SRT
port whose primitive already reports a clean `Closed` state, `Close()` falls
into the default branch: it returns false and clears neither the socket
member nor the observer list, refuting "returns true iff the primitive
reports a clean closed state".  Additionally, the `Udp` branch dereferences
`_datagram_socket` with no null check, so a second `Close()` after a
successful UDP close crashes (`none`) instead of returning a bool. -/
theorem C4_close_misses_srt_and_udp_null :
    srtPortAtClose.server_socket
      = some { state := SocketState.Closed, closeOk := true } ∧
    (srtPortAtClose.close).map
        (fun r => (r.1, r.2.1.server_socket, r.2.1.observer_list))
      = some (false, some { state := SocketState.Closed, closeOk := true }, [7]) ∧
    ({ PhysicalPort.construct with type := SocketType.Udp }).close = none := by
  decide

/-- C5 counterexample: on a port whose server socket is active (and whose
event-loop thread is therefore running), a further `Create(Tcp, ...)` is not
the claimed rejection.  With `Prepare` succeeding the call reaches
`_thread = std::thread(proc)` and aborts the process (`none`): it never
returns false.  And even on the one path that does return — `Prepare`
failing — it returns false with the port mutated: the pool has grown to 32
started workers. -/
theorem C5_counterexample_create_on_active_port :
    activeTcpPort.server_socket ≠ none ∧
    activeTcpPort.thread_running = true ∧
    activeTcpPort.create SocketType.Tcp 9001 true true = none ∧
    (activeTcpPort.create SocketType.Tcp 9001 false true).map
        (fun r => r.1) = some false ∧
    (activeTcpPort.create SocketType.Tcp 9001 false true).map
        (fun r => r.2.1.worker_list.length) = some 32 := by
  decide

/-- C5 amended: a further `Create` on a port with an active primitive (whose
event-loop thread is running) is not rejected: the precondition is enforced
only by the debug-mode `OV_ASSERT2`, and the switch dispatches to
`CreateServerSocket` unconditionally, which first appends and starts 16 more
workers; if `Prepare` then succeeds, the call aborts the process when it
move-assigns onto the still-joinable event-loop thread (`none`), and if
`Prepare` fails it returns false with the pool mutated — in neither case does
it return false with the port left unchanged. -/
theorem C5_amended_create_not_rejected (p : PhysicalPort) (addr : SocketAddress)
    (closeOk : Bool) (_h : p.server_socket ≠ none ∨ p.datagram_socket ≠ none)
    (ht : p.thread_running = true) :
    p.create SocketType.Tcp addr true closeOk
      = p.createServerSocket SocketType.Tcp addr true closeOk ∧
    p.create SocketType.Tcp addr true closeOk = none ∧
    (p.create SocketType.Tcp addr false closeOk).map (fun r => r.1)
      = some false ∧
    (p.create SocketType.Tcp addr false closeOk).map
        (fun r => r.2.1.worker_list.length)
      = some (p.worker_list.length + PHYSICAL_PORT_WORKER_COUNT) := by
  refine ⟨rfl, ?_, ?_, ?_⟩ <;>
    simp [PhysicalPort.create, PhysicalPort.createServerSocket, ht,
      PHYSICAL_PORT_WORKER_COUNT]

/-- C5 amended, witnessed on the concrete active port. -/
theorem C5_amended_witness :
    activeTcpPort.server_socket ≠ none ∧
    activeTcpPort.thread_running = true ∧
    activeTcpPort.create SocketType.Tcp 9001 true true = none ∧
    (activeTcpPort.create SocketType.Tcp 9001 false true).map
        (fun r => r.2.1.worker_list.length)
      = some (activeTcpPort.worker_list.length + PHYSICAL_PORT_WORKER_COUNT) :=
  ⟨by decide, by decide,
    (C5_amended_create_not_rejected activeTcpPort 9001 true
      (Or.inl (by decide)) (by decide)).2.1,
    (C5_amended_create_not_rejected activeTcpPort 9001 true
      (Or.inl (by decide)) (by decide)).2.2.2⟩

/-- C3: on any port whose pool has the full `PHYSICAL_PORT_WORKER_COUNT = 16`
workers, the stream data callback's destination index is exactly the
connection's stable socket identifier modulo 16 — a pure function of the
identifier, so recomputing it over the connection's lifetime always selects
the same worker — the index is in range, and the callback enqueues the task
to precisely that worker and returns `Connected`. -/
theorem C3_data_callback_worker_index (p : PhysicalPort) (clientId : Nat)
    (data : Data) (h : p.worker_list.length = PHYSICAL_PORT_WORKER_COUNT) :
    workerIndexOf clientId = clientId % 16 ∧
    workerIndexOf clientId < p.worker_list.length ∧
    ∃ w, p.worker_list.get? (workerIndexOf clientId) = some w ∧
      p.dataCallback clientId data =
        some ({ p with worker_list :=
            p.worker_list.set (workerIndexOf clientId) (w.addTask (clientId, data)) },
          SocketConnectionState.Connected) := by
  have hlt : workerIndexOf clientId < p.worker_list.length := by
    rw [h]
    exact Nat.mod_lt _ (by decide)
  refine ⟨rfl, hlt, p.worker_list.get ⟨workerIndexOf clientId, hlt⟩,
    List.get?_eq_get hlt, ?_⟩
  unfold PhysicalPort.dataCallback
  rw [List.get?_eq_get hlt]

/-- C3, witnessed on the concrete 16-worker port with identifier 37
(37 mod 16 = 5). -/
theorem C3_witness :
    activeTcpPort.worker_list.length = PHYSICAL_PORT_WORKER_COUNT ∧
    workerIndexOf 37 = 37 % 16 ∧
    workerIndexOf 37 < activeTcpPort.worker_list.length :=
  ⟨by decide,
    (C3_data_callback_worker_index activeTcpPort 37 [1] (by decide)).1,
    (C3_data_callback_worker_index activeTcpPort 37 [1] (by decide)).2.1⟩

/-- C6: `RemoveObserver` on an unregistered observer returns false and leaves
the port (in particular the observer list) unchanged; on a registered one it
returns true, erases exactly the first occurrence, and preserves the
multiplicity of every other observer. -/
theorem C6_remove_observer (p : PhysicalPort) (o : Observer) :
    (o ∉ p.observer_list → p.removeObserver o = (false, p)) ∧
    (o ∈ p.observer_list →
      (p.removeObserver o).1 = true ∧
      (p.removeObserver o).2.observer_list = p.observer_list.erase o ∧
      ∀ b, b ≠ o →
        (p.removeObserver o).2.observer_list.count b = p.observer_list.count b) := by
  constructor
  · intro h
    simp [PhysicalPort.removeObserver, h]
  · intro h
    refine ⟨?_, ?_, ?_⟩
    · simp [PhysicalPort.removeObserver, h]
    · simp [PhysicalPort.removeObserver, h]
    · intro b hb
      simp only [PhysicalPort.removeObserver, if_pos h]
      exact List.count_erase_of_ne hb _

/-- C6, witnessed on the concrete three-observer port. -/
theorem C6_witness :
    (2 : Observer) ∈ obsPort.observer_list ∧
    (obsPort.removeObserver 2).1 = true ∧
    (obsPort.removeObserver 2).2.observer_list.count 1
      = obsPort.observer_list.count 1 ∧
    obsPort.removeObserver 5 = (false, obsPort) :=
  ⟨by decide,
    ((C6_remove_observer obsPort 2).2 (by decide)).1,
    ((C6_remove_observer obsPort 2).2 (by decide)).2.2 1 (by decide),
    (C6_remove_observer obsPort 5).1 (by decide)⟩

/-- C7: a successful `Create` of a stream (`Tcp`) or reliable-datagram
(`Srt`) kind — i.e. from a port with an empty pool and no live event-loop
thread, the only states in which the call's success path completes —
constructs exactly 16 workers, all running; the trace shows every worker
construction and start strictly before the `Prepare` call, and `Prepare`
before the event-loop thread start; on `Prepare` success the stop flag is
cleared, the bound address recorded, the loop thread started, and true
returned. -/
theorem C7_create_server_success (p : PhysicalPort) (ty : SocketType)
    (addr : SocketAddress) (closeOk : Bool)
    (hty : ty = SocketType.Tcp ∨ ty = SocketType.Srt)
    (hw : p.worker_list = [])
    (ht : p.thread_running = false) :
    ∃ q : PhysicalPort,
      p.create ty addr true closeOk
        = some (true, q,
            List.replicate PHYSICAL_PORT_WORKER_COUNT Event.createWorker ++
              List.replicate PHYSICAL_PORT_WORKER_COUNT Event.startWorker ++
              [Event.prepare true, Event.startThread]) ∧
      q.worker_list
        = List.replicate PHYSICAL_PORT_WORKER_COUNT { running := true, tasks := [] } ∧
      (∀ w ∈ q.worker_list, w.running = true) ∧
      q.need_to_stop = false ∧
      q.address = some addr ∧
      q.thread_running = true := by
  have hmem : ∀ w ∈ List.replicate PHYSICAL_PORT_WORKER_COUNT
      (PhysicalPortWorker.mk true []), w.running = true := by
    intro w hw2
    rw [List.eq_of_mem_replicate hw2]
  have hq : ∀ ty2, p.createServerSocket ty2 addr true closeOk
      = some (true,
          { p with
              type := ty2
              server_socket := some { state := SocketState.Listening, closeOk := closeOk }
              need_to_stop := false
              thread_running := true
              address := some addr
              worker_list := List.replicate PHYSICAL_PORT_WORKER_COUNT
                { running := true, tasks := [] } },
          List.replicate PHYSICAL_PORT_WORKER_COUNT Event.createWorker ++
            List.replicate PHYSICAL_PORT_WORKER_COUNT Event.startWorker ++
            [Event.prepare true, Event.startThread]) := by
    intro ty2
    simp [PhysicalPort.createServerSocket, hw, ht,
      PhysicalPortWorker.start, PhysicalPortWorker.construct]
  rcases hty with rfl | rfl <;>
    exact ⟨_, hq _, rfl, hmem, rfl, rfl, rfl⟩

/-- C7, witnessed on a freshly constructed port. -/
theorem C7_witness :
    (PhysicalPort.construct.create SocketType.Tcp 9000 true true).map
        (fun r => (r.1, r.2.1.need_to_stop, r.2.1.address, r.2.1.thread_running))
      = some (true, false, some 9000, true) := by
  obtain ⟨q, hq, _, _, hstop, haddr, hthr⟩ :=
    C7_create_server_success PhysicalPort.construct SocketType.Tcp 9000 true
      (Or.inl rfl) rfl rfl
  rw [hq]
  simp [hstop, haddr, hthr]

/-- C8: the datagram data callback fans the received payload and remote
address out to every registered observer directly (one notification per list
entry, in order), enqueues nothing to any worker, and every notification a
datagram port's dispatch ever produces is an `onDataReceived` — never
`onConnected` or `onDisconnected` (its `DispatchEvent` is wired with only the
data callback). -/
theorem C8_udp_direct_fanout (p : PhysicalPort) (remote : SocketAddress)
    (data : Data) (packets : List (SocketAddress × Data)) :
    (p.udpDataCallback remote data).1
      = p.observer_list.map (fun o => (o, Notice.onDataReceived remote data)) ∧
    (p.udpDataCallback remote data).2.1 = [] ∧
    ∀ x ∈ p.udpDispatch packets, ∃ r d, x.2 = Notice.onDataReceived r d := by
  refine ⟨rfl, rfl, ?_⟩
  intro x hx
  simp only [PhysicalPort.udpDispatch, List.mem_flatten, List.mem_map,
    notifyObservers] at hx
  obtain ⟨L, ⟨pk, hpk, rfl⟩, hxL⟩ := hx
  rw [List.mem_map] at hxL
  obtain ⟨o, ho, rfl⟩ := hxL
  exact ⟨pk.1, pk.2, rfl⟩

/-- C8, witnessed on the concrete three-observer port and a one-packet
dispatch. -/
theorem C8_witness :
    (obsPort.udpDataCallback 5 [1, 2]).2.1 = [] ∧
    ∃ r d, ((1 : Observer), Notice.onDataReceived 5 [1, 2]).2
      = Notice.onDataReceived r d :=
  ⟨(C8_udp_direct_fanout obsPort 5 [1, 2] [(5, [1, 2])]).2.1,
    (C8_udp_direct_fanout obsPort 5 [1, 2] [(5, [1, 2])]).2.2
      (1, Notice.onDataReceived 5 [1, 2]) (by decide)⟩

/-- Fan-out delivers exactly one notification per occurrence of an observer
in the list: the count of the pair `(o, n)` among the produced notifications
equals the multiplicity of `o` in the observer list. -/
theorem count_notifyObservers (l : List Observer) (n : Notice) (o : Observer) :
    (notifyObservers l n).count (o, n) = l.count o := by
  induction l with
  | nil => rfl
  | cons a l ih =>
    simp only [notifyObservers, List.map_cons, List.count_cons] at ih ⊢
    rw [ih]
    by_cases h : a = o
    · simp [h]
    · have hne : ¬((a, n) = (o, n)) := fun hEq => h (congrArg Prod.fst hEq)
      simp [h, hne]

/-- C10: `AddObserver` unconditionally appends (even an already registered
observer) and returns true, so the list admits duplicates; its count of the
added observer rises by one; fan-out delivers one notification per occurrence
(the count of that observer's notification pair equals its multiplicity); and
a single `RemoveObserver` removes exactly one occurrence. -/
theorem C10_add_observer_duplicates (p : PhysicalPort) (o : Observer) (n : Notice) :
    p.addObserver o = (true, { p with observer_list := p.observer_list ++ [o] }) ∧
    (p.addObserver o).2.observer_list.count o = p.observer_list.count o + 1 ∧
    (notifyObservers (p.addObserver o).2.observer_list n).count (o, n)
      = (p.addObserver o).2.observer_list.count o ∧
    (o ∈ p.observer_list →
      (p.removeObserver o).2.observer_list.count o = p.observer_list.count o - 1) := by
  refine ⟨rfl, ?_, ?_, ?_⟩
  · simp [PhysicalPort.addObserver]
  · exact count_notifyObservers _ n o
  · intro h
    simp [PhysicalPort.removeObserver, h]

/-- C10, witnessed on the concrete three-observer port: adding observer 2
again yields count 2, one remove brings it back to count 1. -/
theorem C10_witness :
    (obsPort.addObserver 2).2.observer_list.count 2
      = obsPort.observer_list.count 2 + 1 ∧
    (obsPort.removeObserver 2).2.observer_list.count 2
      = obsPort.observer_list.count 2 - 1 :=
  ⟨(C10_add_observer_duplicates obsPort 2 (Notice.onDataReceived 0 [])).2.1,
    (C10_add_observer_duplicates obsPort 2 (Notice.onDataReceived 0 [])).2.2.2
      (by decide)⟩

end OvenPhysicalPort
